import Mathlib

/-!
Shallow embedding of `thunar-vfs-info.c` (the ThunarVfsInfo component of
thunar-vfs): the descriptor builder `thunar_vfs_info_new_for_uri`, the
equality test `thunar_vfs_info_matches`, the rename operation
`thunar_vfs_info_rename` and the execute operation `thunar_vfs_info_execute`.

External collaborators (the mime database, the XfceRc reader, GKeyFile,
and the GLib filesystem/process calls) are modelled as explicit
environment records: every call the C code makes into a collaborator
becomes a field lookup or a function application on the environment.
Machine integers (mode_t, uid_t, off_t, time_t, ino_t, dev_t) are
modelled as `Nat`; the C code only masks and compares them.  Mime infos
are interned by the mime database, so pointer identity of
`ThunarVfsMimeInfo` coincides with equality of the mime type name; they
are therefore modelled as `String`.
-/

namespace ThunarVfs

/-- POSIX file-type mask from sys/stat.h. -/
def S_IFMT : Nat := 0o170000

/-- POSIX symlink file-type bits from sys/stat.h. -/
def S_IFLNK : Nat := 0o120000

/-- S_ISLNK test from sys/stat.h. -/
def S_ISLNK (m : Nat) : Bool := decide (m &&& S_IFMT = S_IFLNK)

/-- ThunarVfsFileType value for fifos: (S_IFIFO >> 12). -/
def THUNAR_VFS_FILE_TYPE_FIFO : Nat := 1

/-- ThunarVfsFileType value for character devices: (S_IFCHR >> 12). -/
def THUNAR_VFS_FILE_TYPE_CHARDEV : Nat := 2

/-- ThunarVfsFileType value for directories: (S_IFDIR >> 12). -/
def THUNAR_VFS_FILE_TYPE_DIRECTORY : Nat := 4

/-- ThunarVfsFileType value for block devices: (S_IFBLK >> 12). -/
def THUNAR_VFS_FILE_TYPE_BLOCKDEV : Nat := 6

/-- ThunarVfsFileType value for regular files: (S_IFREG >> 12). -/
def THUNAR_VFS_FILE_TYPE_REGULAR : Nat := 8

/-- ThunarVfsFileType value for symbolic links: (S_IFLNK >> 12). -/
def THUNAR_VFS_FILE_TYPE_SYMLINK : Nat := 10

/-- ThunarVfsFileType value for sockets: (S_IFSOCK >> 12). -/
def THUNAR_VFS_FILE_TYPE_SOCKET : Nat := 12

/-- ThunarVfsFileFlags: no flags set. -/
def THUNAR_VFS_FILE_FLAGS_NONE : Nat := 0

/-- ThunarVfsFileFlags: the node is (or was reached through) a symlink. -/
def THUNAR_VFS_FILE_FLAGS_SYMLINK : Nat := 1

/-- ThunarVfsFileFlags: the file was classified as executable. -/
def THUNAR_VFS_FILE_FLAGS_EXECUTABLE : Nat := 2

/-- Relevant fields of a POSIX `struct stat`. -/
structure StatBuf where
  st_mode : Nat
  st_uid : Nat
  st_gid : Nat
  st_size : Nat
  st_atime : Nat
  st_ctime : Nat
  st_mtime : Nat
  st_ino : Nat
  st_dev : Nat
deriving DecidableEq, Repr

/-- The ThunarVfsURI location abstraction: a canonical filesystem path plus
the display name derived from it. -/
structure ThunarVfsURI where
  path : String
  display_name : String
deriving DecidableEq, Repr

/-- thunar_vfs_uri_get_path. -/
def thunar_vfs_uri_get_path (uri : ThunarVfsURI) : String := uri.path

/-- thunar_vfs_uri_get_display_name. -/
def thunar_vfs_uri_get_display_name (uri : ThunarVfsURI) : String :=
  uri.display_name

/-- thunar_vfs_uri_equal: the location abstraction compares by canonical
path (the URI's own equality). -/
def thunar_vfs_uri_equal (a b : ThunarVfsURI) : Bool := decide (a.path = b.path)

/-- Basename of a path: the characters after the last path separator.
Used only to derive the display name of a freshly constructed URI. -/
def pathBasename (p : String) : String :=
  String.mk ((p.data.reverse.takeWhile (fun c => c ≠ '/')).reverse)

/-- thunar_vfs_uri_new_for_path: a URI for the given path, with the
display name derived from the path. -/
def thunar_vfs_uri_new_for_path (p : String) : ThunarVfsURI :=
  { path := p, display_name := pathBasename p }

/-- The lazily allocated hint table: the C code holds a nullable
`gchar **` array indexed by THUNAR_VFS_FILE_HINT_ICON and
THUNAR_VFS_FILE_HINT_NAME, each slot itself nullable. -/
structure Hints where
  icon : Option String
  name : Option String
deriving DecidableEq, Repr

/-- The ThunarVfsInfo descriptor record. -/
structure ThunarVfsInfo where
  uri : ThunarVfsURI
  ref_count : Nat
  display_name : String
  hints : Option Hints
  type : Nat
  mode : Nat
  flags : Nat
  uid : Nat
  gid : Nat
  size : Nat
  atime : Nat
  ctime : Nat
  mtime : Nat
  inode : Nat
  device : Nat
  mime_info : String
deriving DecidableEq, Repr

/-- Flag-membership test on the `flags` bit set. -/
def hasFlag (info : ThunarVfsInfo) (f : Nat) : Bool :=
  decide (info.flags &&& f ≠ 0)

/-- The XfceRc reader for a .desktop file, restricted to the
"Desktop Entry" group (the only group the C code selects): a translated
read, an untranslated read, and a boolean read with a fallback. -/
structure XfceRc where
  read_entry : String → Option String
  read_entry_untranslated : String → Option String
  read_bool_entry : String → Bool → Bool

/-- Error classification used by the operations (GError domains collapsed
to the distinctions the code makes). -/
inductive VfsError where
  /-- Stat, load, conversion, serialization, write or rename syscall
  failure carrying an errno-derived code. -/
  | ioError
  /-- G_FILE_ERROR_INVAL: invalid name, invalid desktop file, no Exec. -/
  | inval
  /-- G_FILE_ERROR_EXIST: rename destination already exists. -/
  | exist
  /-- g_assert_not_reached in the file-type switch. -/
  | unreachable
deriving DecidableEq, Repr

/-- Environment for one `thunar_vfs_info_new_for_uri` call: the results
of the external calls the builder makes for the queried path. -/
structure BuildEnv where
  /-- Result of `lstat (path, &lsb)`; `none` models failure. -/
  lstat : Option StatBuf
  /-- Result of the target-following `stat (path, &sb)`; `none` models
  failure (dangling symlink). -/
  stat : Option StatBuf
  /-- Whether `g_access (path, X_OK) == 0`. -/
  access_x_ok : Bool
  /-- Mime type name returned by
  `thunar_vfs_mime_database_get_info_for_file (db, path, display_name)`. -/
  get_info_for_file : String
  /-- Mime type names returned by
  `thunar_vfs_mime_database_get_infos_for_info` (the type itself together
  with its ancestor/equivalent types). -/
  get_infos_for_info : String → List String
  /-- Result of `xfce_rc_simple_open (path, TRUE)`; `none` models an
  unreadable file. -/
  rc_open : Option XfceRc

/-- Mime type names the executability check accepts (the strcmp tests in
the loop over the mime-info list). -/
def directly_executable (n : String) : Bool :=
  decide (n = "application/x-executable" ∨ n = "application/x-shellscript")

/-- Descriptor as first allocated by the builder: uri, ref_count,
display_name and hints are set up front; the stat-derived fields are
placeholders until the attribute-population step assigns them. -/
def info_base (uri : ThunarVfsURI) : ThunarVfsInfo :=
  { uri := uri
    ref_count := 1
    display_name := thunar_vfs_uri_get_display_name uri
    hints := none
    type := 0, mode := 0, flags := 0, uid := 0, gid := 0, size := 0
    atime := 0, ctime := 0, mtime := 0, inode := 0, device := 0
    mime_info := "" }

/-- Attribute population from one stat buffer, as in the three assignment
blocks of the C builder. -/
def fill_from_stat (sb : StatBuf) (flags : Nat) (info : ThunarVfsInfo) :
    ThunarVfsInfo :=
  { info with
    type := (sb.st_mode &&& S_IFMT) >>> 12
    mode := sb.st_mode &&& 0o7777
    flags := flags
    uid := sb.st_uid, gid := sb.st_gid, size := sb.st_size
    atime := sb.st_atime, ctime := sb.st_ctime, mtime := sb.st_mtime
    inode := sb.st_ino, device := sb.st_dev }

/-- POSIX attribute determination: non-symlink nodes use the lstat buffer
with no flags; symlinks use the target-following stat with the symlink
flag; if that stat fails (dangling link) the lstat buffer is used but the
type is forced to the symlink variant. -/
def info_with_attributes (uri : ThunarVfsURI) (lsb : StatBuf)
    (stat : Option StatBuf) : ThunarVfsInfo :=
  if S_ISLNK lsb.st_mode = false then
    fill_from_stat lsb THUNAR_VFS_FILE_FLAGS_NONE (info_base uri)
  else
    match stat with
    | some sb => fill_from_stat sb THUNAR_VFS_FILE_FLAGS_SYMLINK (info_base uri)
    | none =>
      { fill_from_stat lsb THUNAR_VFS_FILE_FLAGS_SYMLINK (info_base uri) with
        type := THUNAR_VFS_FILE_TYPE_SYMLINK }

/-- Security check for regular files: the executable flag is set only if
some read permission bit is set, the path passes the X_OK access check,
and one of the mime infos for the file's mime type is a directly
executable type (the loop with early break over the info list). -/
def exec_flag_check (env : BuildEnv) (info : ThunarVfsInfo) : ThunarVfsInfo :=
  if (info.mode &&& 0o444) ≠ 0 ∧ env.access_x_ok = true then
    if (env.get_infos_for_info info.mime_info).any directly_executable then
      { info with flags := info.flags ||| THUNAR_VFS_FILE_FLAGS_EXECUTABLE }
    else info
  else info

/-- Hint-table allocation and population for a readable .desktop file:
the untranslated Icon entry and the translated Name entry. -/
def desktop_hints_set (rc : XfceRc) (info : ThunarVfsInfo) : ThunarVfsInfo :=
  { info with
    hints := some { icon := rc.read_entry_untranslated "Icon"
                    name := rc.read_entry "Name" } }

/-- Launcher executability: the Type entry read untranslated with default
"Application" must equal "Application" and an Exec entry must be present
(non-NULL). -/
def desktop_exec_check (rc : XfceRc) (info : ThunarVfsInfo) : ThunarVfsInfo :=
  if (rc.read_entry_untranslated "Type").getD "Application" = "Application"
      ∧ rc.read_entry "Exec" ≠ none then
    { info with flags := info.flags ||| THUNAR_VFS_FILE_FLAGS_EXECUTABLE }
  else info

/-- The `.desktop` special case of the builder: when the resolved mime
type is exactly application/x-desktop and the file is readable, allocate
the hints and run the launcher executability check; an unreadable file
leaves the descriptor untouched (no error). -/
def desktop_hints_check (env : BuildEnv) (info : ThunarVfsInfo) :
    ThunarVfsInfo :=
  if info.mime_info = "application/x-desktop" then
    match env.rc_open with
    | none => info
    | some rc => desktop_exec_check rc (desktop_hints_set rc info)
  else info

/-- The switch over `info->type` that resolves the mime type; regular
files additionally run the executability check and the .desktop hint
extraction; an unrecognized type value hits g_assert_not_reached. -/
def info_mime_switch (env : BuildEnv) (info : ThunarVfsInfo) :
    Except VfsError ThunarVfsInfo :=
  if info.type = THUNAR_VFS_FILE_TYPE_SOCKET then
    Except.ok { info with mime_info := "inode/socket" }
  else if info.type = THUNAR_VFS_FILE_TYPE_SYMLINK then
    Except.ok { info with mime_info := "inode/symlink" }
  else if info.type = THUNAR_VFS_FILE_TYPE_BLOCKDEV then
    Except.ok { info with mime_info := "inode/blockdevice" }
  else if info.type = THUNAR_VFS_FILE_TYPE_DIRECTORY then
    Except.ok { info with mime_info := "inode/directory" }
  else if info.type = THUNAR_VFS_FILE_TYPE_CHARDEV then
    Except.ok { info with mime_info := "inode/chardevice" }
  else if info.type = THUNAR_VFS_FILE_TYPE_FIFO then
    Except.ok { info with mime_info := "inode/fifo" }
  else if info.type = THUNAR_VFS_FILE_TYPE_REGULAR then
    Except.ok (desktop_hints_check env
      (exec_flag_check env { info with mime_info := env.get_info_for_file }))
  else
    Except.error VfsError.unreachable

/-- thunar_vfs_info_new_for_uri: lstat the path (failure is an I/O
error), populate the POSIX attributes, then resolve the mime type and
the regular-file special cases. -/
def thunar_vfs_info_new_for_uri (env : BuildEnv) (uri : ThunarVfsURI) :
    Except VfsError ThunarVfsInfo :=
  match env.lstat with
  | none => Except.error VfsError.ioError
  | some lsb => info_mime_switch env (info_with_attributes uri lsb env.stat)

/-- thunar_vfs_info_matches: the liveness guards followed by the
attribute-by-attribute conjunction from the C code (mime infos compared
by identity, URIs by thunar_vfs_uri_equal; display_name and hints are
not part of the comparison). -/
def thunar_vfs_info_matches (a b : ThunarVfsInfo) : Bool :=
  if a.ref_count = 0 ∨ b.ref_count = 0 then false
  else
    decide (a.type = b.type)
    && decide (a.mode = b.mode)
    && decide (a.flags = b.flags)
    && decide (a.uid = b.uid)
    && decide (a.gid = b.gid)
    && decide (a.size = b.size)
    && decide (a.atime = b.atime)
    && decide (a.mtime = b.mtime)
    && decide (a.ctime = b.ctime)
    && decide (a.inode = b.inode)
    && decide (a.device = b.device)
    && decide (a.mime_info = b.mime_info)
    && thunar_vfs_uri_equal a.uri b.uri

/-- GKeyFile restricted to what the rename path touches: whether the
"Desktop Entry" group is present, and that group's key/value pairs in
file order. -/
structure GKeyFile where
  has_desktop_entry_group : Bool
  entries : List (String × String)
deriving DecidableEq, Repr

/-- g_key_file_has_key for the "Desktop Entry" group. -/
def g_key_file_has_key (kf : GKeyFile) (key : String) : Bool :=
  kf.entries.any (fun p => decide (p.1 = key))

/-- g_key_file_set_string for the "Desktop Entry" group: overwrite the
value of an existing key in place, or append the key. -/
def g_key_file_set_string (kf : GKeyFile) (key value : String) : GKeyFile :=
  if g_key_file_has_key kf key then
    { kf with
      entries := kf.entries.map (fun p => if p.1 = key then (key, value) else p) }
  else
    { kf with entries := kf.entries ++ [(key, value)] }

/-- Localized Name key for one locale, as built by g_strdup_printf. -/
def name_key_for_locale (l : String) : String := "Name[" ++ l ++ "]"

/-- The loop over g_get_language_names: the first locale whose localized
Name key already exists in the key file determines the key to write;
`none` means the loop ran to completion. -/
def localized_name_key (locales : List String) (kf : GKeyFile) :
    Option String :=
  match locales with
  | [] => none
  | l :: rest =>
    if g_key_file_has_key kf (name_key_for_locale l) then
      some (name_key_for_locale l)
    else localized_name_key rest kf

/-- Environment for one `thunar_vfs_info_rename` call. -/
structure RenameEnv where
  /-- g_get_language_names: the process's preferred locales in
  preference order. -/
  language_names : List String
  /-- Result of g_key_file_load_from_file on the source path; `none`
  models a load failure. -/
  key_file_load : Option GKeyFile
  /-- Whether g_key_file_to_data succeeds. -/
  key_file_to_data_ok : Bool
  /-- Whether g_file_set_contents succeeds. -/
  set_contents_ok : Bool
  /-- g_filename_from_utf8; `none` models a conversion failure. -/
  filename_from_utf8 : String → Option String
  /-- g_file_test (dst_path, G_FILE_TEST_EXISTS). -/
  file_test_exists : String → Bool
  /-- Whether the g_rename syscall succeeds. -/
  rename_ok : Bool
  /-- g_path_get_dirname. -/
  path_get_dirname : String → String
  /-- g_build_filename (dirname, name, NULL). -/
  build_filename : String → String → String
  /-- thunar_vfs_mime_database_get_info_for_file for the re-resolution
  after a successful rename of a regular file (path, display name). -/
  get_info_for_file : String → String → String

/-- Filesystem syscalls issued by a rename call (issued, whether or not
they succeeded; a failed syscall mutates nothing on disk). -/
inductive FsAction where
  | rename (src dst : String)
  | set_contents (path : String) (data : GKeyFile)
deriving DecidableEq, Repr

/-- Result of a rename call: the GError (none on success), the descriptor
after the call (the C mutates in place; error paths return it unchanged),
and the filesystem syscalls that were issued. -/
structure RenameOutcome where
  err : Option VfsError
  info : ThunarVfsInfo
  actions : List FsAction
deriving DecidableEq, Repr

/-- Name-hint update after a successful .desktop rewrite: only performed
when the hint table was already allocated. -/
def rename_update_name_hint (info : ThunarVfsInfo) (name : String) :
    ThunarVfsInfo :=
  match info.hints with
  | none => info
  | some h => { info with hints := some { h with name := some name } }

/-- The .desktop branch of rename on a successfully loaded key file:
require the "Desktop Entry" group, write the new name into the first
existing localized Name key (unlocalized Name as fallback), serialize
and write back, then update the in-memory name hint. -/
def rename_desktop_with (env : RenameEnv) (info : ThunarVfsInfo)
    (name : String) (key_file : GKeyFile) : RenameOutcome :=
  if key_file.has_desktop_entry_group = false then
    ⟨some VfsError.inval, info, []⟩
  else if env.key_file_to_data_ok = false then
    ⟨some VfsError.ioError, info, []⟩
  else if env.set_contents_ok = false then
    ⟨some VfsError.ioError, info,
      [FsAction.set_contents (thunar_vfs_uri_get_path info.uri)
        (g_key_file_set_string key_file
          ((localized_name_key env.language_names key_file).getD "Name")
          name)]⟩
  else
    ⟨none, rename_update_name_hint info name,
      [FsAction.set_contents (thunar_vfs_uri_get_path info.uri)
        (g_key_file_set_string key_file
          ((localized_name_key env.language_names key_file).getD "Name")
          name)]⟩

/-- The .desktop branch of rename: load the key file (preserving comments
and translations), then rewrite its Name entry. -/
def rename_desktop (env : RenameEnv) (info : ThunarVfsInfo) (name : String) :
    RenameOutcome :=
  match env.key_file_load with
  | none => ⟨some VfsError.ioError, info, []⟩
  | some key_file => rename_desktop_with env info name key_file

/-- In-memory updates after a successful rename syscall: replace the URI
and the display name; regular files re-resolve the mime type against the
new path and (just updated) display name. -/
def rename_apply_success (env : RenameEnv) (info : ThunarVfsInfo)
    (name dst_path : String) : ThunarVfsInfo :=
  if info.type = THUNAR_VFS_FILE_TYPE_REGULAR then
    { info with
      uri := thunar_vfs_uri_new_for_path dst_path
      display_name := name
      mime_info := env.get_info_for_file dst_path name }
  else
    { info with
      uri := thunar_vfs_uri_new_for_path dst_path
      display_name := name }

/-- Destination-existence check and rename syscall for the non-launcher
branch, at an already computed destination path. -/
def rename_regular_at (env : RenameEnv) (info : ThunarVfsInfo)
    (name dst_path : String) : RenameOutcome :=
  if env.file_test_exists dst_path = true then
    ⟨some VfsError.exist, info, []⟩
  else if env.rename_ok = false then
    ⟨some VfsError.ioError, info,
      [FsAction.rename (thunar_vfs_uri_get_path info.uri) dst_path]⟩
  else
    ⟨none, rename_apply_success env info name dst_path,
      [FsAction.rename (thunar_vfs_uri_get_path info.uri) dst_path]⟩

/-- The non-launcher branch of rename: convert the name to the on-disk
encoding and build the sibling destination path. -/
def rename_regular (env : RenameEnv) (info : ThunarVfsInfo) (name : String) :
    RenameOutcome :=
  match env.filename_from_utf8 name with
  | none => ⟨some VfsError.ioError, info, []⟩
  | some dst_name =>
    rename_regular_at env info name
      (env.build_filename
        (env.path_get_dirname (thunar_vfs_uri_get_path info.uri)) dst_name)

/-- thunar_vfs_info_rename: name validation (`*name == '\0'` or a '/'
anywhere is invalid), then the .desktop branch or the plain-rename
branch depending on the current mime type.  The g_return_val_if_fail
guards (non-NULL info, positive ref count, UTF-8 validity of the name)
are caller-contract assertions and are treated as preconditions. -/
def thunar_vfs_info_rename (env : RenameEnv) (info : ThunarVfsInfo)
    (name : String) : RenameOutcome :=
  if name = "" ∨ name.data.contains '/' = true then
    ⟨some VfsError.inval, info, []⟩
  else if info.mime_info = "application/x-desktop" then
    rename_desktop env info name
  else
    rename_regular env info name

/-- Environment for one `thunar_vfs_info_execute` call. -/
structure ExecuteEnv where
  /-- Result of xfce_rc_simple_open on the descriptor's path. -/
  rc_open : Option XfceRc
  /-- The _thunar_vfs_sysdep_parse_exec collaborator: exec template,
  target uris, icon, name, path, terminal flag; returns the argv or
  `none` on parse failure. -/
  parse_exec : String → List ThunarVfsURI → Option String → Option String →
    Option String → Bool → Option (List String)
  /-- g_shell_quote. -/
  shell_quote : String → String
  /-- g_path_get_dirname. -/
  path_get_dirname : String → String
  /-- Whether gdk_spawn_on_screen succeeds. -/
  spawn_ok : Bool

/-- Result of an execute call: the C boolean result and, when the
command line was constructed, the working directory and argv handed to
gdk_spawn_on_screen. -/
structure ExecuteOutcome where
  result : Bool
  spawn : Option (String × List String)

/-- Command-line construction of execute: a .desktop descriptor reads
its Exec template (missing Exec and unreadable file are distinct
errors); any other descriptor fakes an Exec line from its shell-quoted
path with a " %F" placeholder appended. -/
def execute_parse (env : ExecuteEnv) (info : ThunarVfsInfo)
    (uris : List ThunarVfsURI) : Option (List String) :=
  if info.mime_info = "application/x-desktop" then
    match env.rc_open with
    | none => none
    | some rc =>
      match rc.read_entry_untranslated "Exec" with
      | none => none
      | some exec =>
        env.parse_exec exec uris (rc.read_entry_untranslated "Icon")
          (rc.read_entry "Name") (some (thunar_vfs_uri_get_path info.uri))
          (rc.read_bool_entry "Terminal" false)
  else
    env.parse_exec
      (env.shell_quote (thunar_vfs_uri_get_path info.uri) ++ " %F") uris
      none none none false

/-- thunar_vfs_info_execute: construct the command line, then spawn it
with the working directory taken from the first target uri's parent
directory, or from the descriptor's own parent directory if no targets
were given. -/
def thunar_vfs_info_execute (env : ExecuteEnv) (info : ThunarVfsInfo)
    (uris : List ThunarVfsURI) : ExecuteOutcome :=
  match execute_parse env info uris with
  | none => ⟨false, none⟩
  | some argv =>
    ⟨env.spawn_ok,
     some (env.path_get_dirname
       (match uris with
        | [] => thunar_vfs_uri_get_path info.uri
        | u :: _ => thunar_vfs_uri_get_path u), argv)⟩

/-! Helper lemmas about the builder stages. -/

theorem exec_flag_check_type (env : BuildEnv) (i : ThunarVfsInfo) :
    (exec_flag_check env i).type = i.type := by
  unfold exec_flag_check; split <;> (try split) <;> rfl

theorem exec_flag_check_mode (env : BuildEnv) (i : ThunarVfsInfo) :
    (exec_flag_check env i).mode = i.mode := by
  unfold exec_flag_check; split <;> (try split) <;> rfl

theorem exec_flag_check_mime (env : BuildEnv) (i : ThunarVfsInfo) :
    (exec_flag_check env i).mime_info = i.mime_info := by
  unfold exec_flag_check; split <;> (try split) <;> rfl

theorem exec_flag_check_hints (env : BuildEnv) (i : ThunarVfsInfo) :
    (exec_flag_check env i).hints = i.hints := by
  unfold exec_flag_check; split <;> (try split) <;> rfl

theorem desktop_hints_check_type (env : BuildEnv) (i : ThunarVfsInfo) :
    (desktop_hints_check env i).type = i.type := by
  unfold desktop_hints_check desktop_exec_check desktop_hints_set
  split <;> (try split) <;> (try split) <;> rfl

theorem desktop_hints_check_mode (env : BuildEnv) (i : ThunarVfsInfo) :
    (desktop_hints_check env i).mode = i.mode := by
  unfold desktop_hints_check desktop_exec_check desktop_hints_set
  split <;> (try split) <;> (try split) <;> rfl

theorem desktop_hints_check_mime (env : BuildEnv) (i : ThunarVfsInfo) :
    (desktop_hints_check env i).mime_info = i.mime_info := by
  unfold desktop_hints_check desktop_exec_check desktop_hints_set
  split <;> (try split) <;> (try split) <;> rfl

theorem info_with_attributes_flags (uri : ThunarVfsURI) (lsb : StatBuf)
    (stat : Option StatBuf) :
    (info_with_attributes uri lsb stat).flags = 0 ∨
      (info_with_attributes uri lsb stat).flags = 1 := by
  unfold info_with_attributes
  split
  · exact Or.inl rfl
  · split
    · exact Or.inr rfl
    · exact Or.inr rfl

theorem info_with_attributes_hints (uri : ThunarVfsURI) (lsb : StatBuf)
    (stat : Option StatBuf) :
    (info_with_attributes uri lsb stat).hints = none := by
  unfold info_with_attributes
  split
  · rfl
  · split <;> rfl

/-- The builder, unfolded at a regular-file result: the lstat succeeded,
the attribute-population step produced the regular type, and the result
is the executability check followed by the .desktop check applied to the
descriptor with its mime type resolved by the database. -/
theorem build_regular_decomposition (env : BuildEnv) (uri : ThunarVfsURI)
    (info : ThunarVfsInfo)
    (hok : thunar_vfs_info_new_for_uri env uri = Except.ok info)
    (hreg : info.type = THUNAR_VFS_FILE_TYPE_REGULAR) :
    ∃ lsb, env.lstat = some lsb ∧
      (info_with_attributes uri lsb env.stat).type = THUNAR_VFS_FILE_TYPE_REGULAR ∧
      info = desktop_hints_check env (exec_flag_check env
        { info_with_attributes uri lsb env.stat with
          mime_info := env.get_info_for_file }) := by
  cases hl : env.lstat with
  | none => simp [thunar_vfs_info_new_for_uri, hl] at hok
  | some lsb =>
    have hok2 : info_mime_switch env (info_with_attributes uri lsb env.stat) =
        Except.ok info := by
      rw [← hok]; unfold thunar_vfs_info_new_for_uri; rw [hl]
    clear hok
    rename' hok2 => hok
    refine ⟨lsb, rfl, ?_⟩
    unfold info_mime_switch at hok
    split_ifs at hok with h1 h2 h3 h4 h5 h6 h7
    · injection hok with h; subst h
      simp only [ThunarVfsInfo.type] at hreg
      rw [h1] at hreg
      simp [THUNAR_VFS_FILE_TYPE_SOCKET, THUNAR_VFS_FILE_TYPE_REGULAR] at hreg
    · injection hok with h; subst h
      simp only [ThunarVfsInfo.type] at hreg
      rw [h2] at hreg
      simp [THUNAR_VFS_FILE_TYPE_SYMLINK, THUNAR_VFS_FILE_TYPE_REGULAR] at hreg
    · injection hok with h; subst h
      simp only [ThunarVfsInfo.type] at hreg
      rw [h3] at hreg
      simp [THUNAR_VFS_FILE_TYPE_BLOCKDEV, THUNAR_VFS_FILE_TYPE_REGULAR] at hreg
    · injection hok with h; subst h
      simp only [ThunarVfsInfo.type] at hreg
      rw [h4] at hreg
      simp [THUNAR_VFS_FILE_TYPE_DIRECTORY, THUNAR_VFS_FILE_TYPE_REGULAR] at hreg
    · injection hok with h; subst h
      simp only [ThunarVfsInfo.type] at hreg
      rw [h5] at hreg
      simp [THUNAR_VFS_FILE_TYPE_CHARDEV, THUNAR_VFS_FILE_TYPE_REGULAR] at hreg
    · injection hok with h; subst h
      simp only [ThunarVfsInfo.type] at hreg
      rw [h6] at hreg
      simp [THUNAR_VFS_FILE_TYPE_FIFO, THUNAR_VFS_FILE_TYPE_REGULAR] at hreg
    · injection hok with h
      exact ⟨h7, h.symm⟩

theorem desktop_hints_set_mime (rc : XfceRc) (i : ThunarVfsInfo) :
    (desktop_hints_set rc i).mime_info = i.mime_info := rfl

theorem desktop_hints_set_type (rc : XfceRc) (i : ThunarVfsInfo) :
    (desktop_hints_set rc i).type = i.type := rfl

theorem desktop_exec_check_mime (rc : XfceRc) (i : ThunarVfsInfo) :
    (desktop_exec_check rc i).mime_info = i.mime_info := by
  unfold desktop_exec_check; split <;> rfl

theorem desktop_exec_check_type (rc : XfceRc) (i : ThunarVfsInfo) :
    (desktop_exec_check rc i).type = i.type := by
  unfold desktop_exec_check; split <;> rfl

theorem hasFlag_exec_or (i : ThunarVfsInfo) (h : i.flags = 0 ∨ i.flags = 1) :
    hasFlag { i with flags := i.flags ||| THUNAR_VFS_FILE_FLAGS_EXECUTABLE }
      THUNAR_VFS_FILE_FLAGS_EXECUTABLE = true := by
  unfold hasFlag THUNAR_VFS_FILE_FLAGS_EXECUTABLE
  rcases h with h | h <;> (rw [show ({ i with flags := i.flags ||| 2 } :
    ThunarVfsInfo).flags = i.flags ||| 2 from rfl, h]) <;> decide

theorem hasFlag_exec_low (i : ThunarVfsInfo) (h : i.flags = 0 ∨ i.flags = 1) :
    hasFlag i THUNAR_VFS_FILE_FLAGS_EXECUTABLE = false := by
  unfold hasFlag THUNAR_VFS_FILE_FLAGS_EXECUTABLE
  rcases h with h | h <;> rw [h] <;> decide

/-- Characterization of the security check for descriptors whose flags
can only be NONE or SYMLINK (as produced by the attribute population). -/
theorem exec_flag_check_spec (env : BuildEnv) (i : ThunarVfsInfo)
    (h : i.flags = 0 ∨ i.flags = 1) :
    (hasFlag (exec_flag_check env i) THUNAR_VFS_FILE_FLAGS_EXECUTABLE = true ↔
      ((i.mode &&& 0o444) ≠ 0 ∧ env.access_x_ok = true ∧
        (env.get_infos_for_info i.mime_info).any directly_executable = true)) := by
  unfold exec_flag_check
  split
  · rename_i hc
    split
    · rename_i ha
      exact ⟨fun _ => ⟨hc.1, hc.2, ha⟩, fun _ => hasFlag_exec_or i h⟩
    · rename_i ha
      rw [hasFlag_exec_low i h]
      simp only [Bool.false_eq_true, false_iff]
      intro hx
      exact ha hx.2.2
  · rename_i hc
    rw [hasFlag_exec_low i h]
    simp only [Bool.false_eq_true, false_iff]
    intro hx
    exact hc ⟨hx.1, hx.2.1⟩

/-- Truth characterization of thunar_vfs_info_matches. -/
theorem matches_true_iff (a b : ThunarVfsInfo) :
    thunar_vfs_info_matches a b = true ↔
      (a.ref_count ≠ 0 ∧ b.ref_count ≠ 0 ∧ a.type = b.type ∧ a.mode = b.mode ∧
       a.flags = b.flags ∧ a.uid = b.uid ∧ a.gid = b.gid ∧ a.size = b.size ∧
       a.atime = b.atime ∧ a.mtime = b.mtime ∧ a.ctime = b.ctime ∧
       a.inode = b.inode ∧ a.device = b.device ∧ a.mime_info = b.mime_info ∧
       a.uri.path = b.uri.path) := by
  unfold thunar_vfs_info_matches thunar_vfs_uri_equal
  split
  · rename_i h
    simp only [Bool.false_eq_true, false_iff]
    tauto
  · rename_i h
    push_neg at h
    obtain ⟨h1, h2⟩ := h
    simp only [Bool.and_eq_true, decide_eq_true_eq, h1, h2, true_and, and_assoc,
      not_false_iff]
    tauto

/-- The locale loop finds exactly the first preferred locale whose
localized Name key is already present. -/
theorem localized_name_key_eq_find (locales : List String) (kf : GKeyFile) :
    localized_name_key locales kf =
      (locales.find? (fun l => g_key_file_has_key kf (name_key_for_locale l))).map
        name_key_for_locale := by
  induction locales with
  | nil => rfl
  | cons l rest ih =>
    unfold localized_name_key
    by_cases h : g_key_file_has_key kf (name_key_for_locale l) = true
    · simp [List.find?_cons, h]
    · simp only [Bool.not_eq_true] at h
      simp [List.find?_cons, h, ih]

/-- Where hints can come from in the builder: either they are absent, or
the descriptor is a regular file whose mime type resolved to the
launcher type and whose .desktop file was readable. -/
theorem build_hints_cases (env : BuildEnv) (uri : ThunarVfsURI)
    (info : ThunarVfsInfo)
    (hok : thunar_vfs_info_new_for_uri env uri = Except.ok info) :
    info.hints = none ∨
      (info.mime_info = "application/x-desktop" ∧
       info.type = THUNAR_VFS_FILE_TYPE_REGULAR ∧ env.rc_open ≠ none) := by
  cases hl : env.lstat with
  | none => simp [thunar_vfs_info_new_for_uri, hl] at hok
  | some lsb =>
    have hok2 : info_mime_switch env (info_with_attributes uri lsb env.stat) =
        Except.ok info := by
      rw [← hok]; unfold thunar_vfs_info_new_for_uri; rw [hl]
    have hbase : (info_with_attributes uri lsb env.stat).hints = none :=
      info_with_attributes_hints uri lsb env.stat
    unfold info_mime_switch at hok2
    split_ifs at hok2 with h1 h2 h3 h4 h5 h6 h7
    · injection hok2 with h; subst h; exact Or.inl hbase
    · injection hok2 with h; subst h; exact Or.inl hbase
    · injection hok2 with h; subst h; exact Or.inl hbase
    · injection hok2 with h; subst h; exact Or.inl hbase
    · injection hok2 with h; subst h; exact Or.inl hbase
    · injection hok2 with h; subst h; exact Or.inl hbase
    · injection hok2 with h
      have hE : (exec_flag_check env
          { info_with_attributes uri lsb env.stat with
            mime_info := env.get_info_for_file }).hints = none := by
        rw [exec_flag_check_hints]; exact hbase
      have hEt : (exec_flag_check env
          { info_with_attributes uri lsb env.stat with
            mime_info := env.get_info_for_file }).type =
          THUNAR_VFS_FILE_TYPE_REGULAR := by
        rw [exec_flag_check_type]; exact h7
      rw [← h]
      unfold desktop_hints_check
      split
      · rename_i hd
        cases hrc : env.rc_open with
        | none => exact Or.inl hE
        | some rc =>
          refine Or.inr ⟨?_, ?_, by simp [hrc]⟩
          · rw [desktop_exec_check_mime, desktop_hints_set_mime]
            exact hd
          · rw [desktop_exec_check_type, desktop_hints_set_type]
            exact hEt
      · exact Or.inl hE

theorem rename_desktop_with_hints_isSome (env : RenameEnv)
    (info : ThunarVfsInfo) (name : String) (kf : GKeyFile) :
    ((rename_desktop_with env info name kf).info.hints).isSome =
      info.hints.isSome := by
  unfold rename_desktop_with
  split_ifs
  · rfl
  · rfl
  · rfl
  · unfold rename_update_name_hint
    cases hh : info.hints <;> simp [hh]

theorem rename_desktop_hints_isSome (env : RenameEnv) (info : ThunarVfsInfo)
    (name : String) :
    ((rename_desktop env info name).info.hints).isSome =
      info.hints.isSome := by
  unfold rename_desktop
  cases env.key_file_load with
  | none => rfl
  | some kf => exact rename_desktop_with_hints_isSome env info name kf

theorem rename_regular_at_hints (env : RenameEnv) (info : ThunarVfsInfo)
    (name dst_path : String) :
    (rename_regular_at env info name dst_path).info.hints = info.hints := by
  unfold rename_regular_at
  split_ifs
  · rfl
  · rfl
  · unfold rename_apply_success
    split <;> rfl

theorem rename_regular_hints (env : RenameEnv) (info : ThunarVfsInfo)
    (name : String) :
    (rename_regular env info name).info.hints = info.hints := by
  unfold rename_regular
  cases env.filename_from_utf8 name with
  | none => rfl
  | some dn => exact rename_regular_at_hints env info name _

/-- Rename never allocates nor frees the hint table. -/
theorem rename_hints_isSome (env : RenameEnv) (info : ThunarVfsInfo)
    (name : String) :
    ((thunar_vfs_info_rename env info name).info.hints).isSome =
      info.hints.isSome := by
  unfold thunar_vfs_info_rename
  split_ifs
  · rfl
  · exact rename_desktop_hints_isSome env info name
  · rw [rename_regular_hints]

theorem hasFlag_symlink_one (i : ThunarVfsInfo) (h : i.flags = 1) :
    hasFlag i THUNAR_VFS_FILE_FLAGS_SYMLINK = true := by
  unfold hasFlag THUNAR_VFS_FILE_FLAGS_SYMLINK
  rw [h]
  decide

theorem info_mime_switch_symlink (env : BuildEnv) (i : ThunarVfsInfo)
    (h : i.type = THUNAR_VFS_FILE_TYPE_SYMLINK) :
    info_mime_switch env i =
      Except.ok { i with mime_info := "inode/symlink" } := by
  unfold info_mime_switch
  rw [if_neg (by rw [h]; decide), if_pos h]

/-! Claim theorems. -/

/-- C1: for every descriptor built from a regular file, the
permission-based executability test sets the `executable` flag exactly
when (a) some read-permission bit (0444) is set in the mode and the
OS X_OK access check succeeds, and (b) the resolved content type is, or
has among its ancestors/equivalents, application/x-executable or
application/x-shellscript; consequently a regular file whose content
type does not resolve to the launcher type has the final flag set
exactly under that condition (a file meeting (a) but not (b) does not
get the flag from this test). -/
theorem sC1_regular_executable_flag (env : BuildEnv) (uri : ThunarVfsURI)
    (info : ThunarVfsInfo)
    (hok : thunar_vfs_info_new_for_uri env uri = Except.ok info)
    (hreg : info.type = THUNAR_VFS_FILE_TYPE_REGULAR) :
    (∃ lsb, env.lstat = some lsb ∧
      info = desktop_hints_check env (exec_flag_check env
        { info_with_attributes uri lsb env.stat with
          mime_info := env.get_info_for_file }) ∧
      (hasFlag (exec_flag_check env
          { info_with_attributes uri lsb env.stat with
            mime_info := env.get_info_for_file })
          THUNAR_VFS_FILE_FLAGS_EXECUTABLE = true ↔
        (((info_with_attributes uri lsb env.stat).mode &&& 0o444) ≠ 0 ∧
          env.access_x_ok = true ∧
          ∃ n ∈ env.get_infos_for_info env.get_info_for_file,
            n = "application/x-executable" ∨ n = "application/x-shellscript")))
    ∧ (info.mime_info ≠ "application/x-desktop" →
        (hasFlag info THUNAR_VFS_FILE_FLAGS_EXECUTABLE = true ↔
          ((info.mode &&& 0o444) ≠ 0 ∧ env.access_x_ok = true ∧
            ∃ n ∈ env.get_infos_for_info info.mime_info,
              n = "application/x-executable" ∨ n = "application/x-shellscript"))) := by
  obtain ⟨lsb, hl, ht, heq⟩ := build_regular_decomposition env uri info hok hreg
  have hfl : ({ info_with_attributes uri lsb env.stat with
      mime_info := env.get_info_for_file } : ThunarVfsInfo).flags = 0 ∨
      ({ info_with_attributes uri lsb env.stat with
        mime_info := env.get_info_for_file } : ThunarVfsInfo).flags = 1 :=
    info_with_attributes_flags uri lsb env.stat
  have hspec := exec_flag_check_spec env
    { info_with_attributes uri lsb env.stat with
      mime_info := env.get_info_for_file } hfl
  constructor
  · refine ⟨lsb, hl, heq, ?_⟩
    rw [hspec]
    simp [List.any_eq_true, directly_executable]
  · intro hnd
    have hm : info.mime_info = env.get_info_for_file := by
      rw [heq, desktop_hints_check_mime, exec_flag_check_mime]
    rw [hm] at hnd
    have hskip : desktop_hints_check env (exec_flag_check env
        { info_with_attributes uri lsb env.stat with
          mime_info := env.get_info_for_file }) =
        exec_flag_check env
          { info_with_attributes uri lsb env.stat with
            mime_info := env.get_info_for_file } := by
      unfold desktop_hints_check
      rw [if_neg (by rw [exec_flag_check_mime]; exact hnd)]
    rw [heq, hskip, hspec, exec_flag_check_mode, exec_flag_check_mime]
    simp [List.any_eq_true, directly_executable]

def uriC1 : ThunarVfsURI := { path := "/usr/bin/tool", display_name := "tool" }

def statC1 : StatBuf :=
  { st_mode := 0o100755, st_uid := 500, st_gid := 500, st_size := 1234
    st_atime := 10, st_ctime := 11, st_mtime := 12, st_ino := 99, st_dev := 3 }

def envC1 : BuildEnv :=
  { lstat := some statC1, stat := none, access_x_ok := true
    get_info_for_file := "application/x-executable"
    get_infos_for_info := fun m => [m], rc_open := none }

def infoC1 : ThunarVfsInfo :=
  { uri := uriC1, ref_count := 1, display_name := "tool", hints := none
    type := 8, mode := 0o755, flags := 2, uid := 500, gid := 500, size := 1234
    atime := 10, ctime := 11, mtime := 12, inode := 99, device := 3
    mime_info := "application/x-executable" }

theorem sC1_witness :
    thunar_vfs_info_new_for_uri envC1 uriC1 = Except.ok infoC1 ∧
    infoC1.type = THUNAR_VFS_FILE_TYPE_REGULAR ∧
    infoC1.mime_info ≠ "application/x-desktop" ∧
    (hasFlag infoC1 THUNAR_VFS_FILE_FLAGS_EXECUTABLE = true ↔
      ((infoC1.mode &&& 0o444) ≠ 0 ∧ envC1.access_x_ok = true ∧
        ∃ n ∈ envC1.get_infos_for_info infoC1.mime_info,
          n = "application/x-executable" ∨ n = "application/x-shellscript")) :=
  ⟨rfl, rfl, by decide,
    (sC1_regular_executable_flag envC1 uriC1 infoC1 rfl rfl).2 (by decide)⟩

/-- C2: a symbolic link whose target-following stat fails (dangling
symlink) still yields a descriptor (no error), with the symlink file
type, the symlink flag, and all attribute fields coming from the link
inode's own lstat buffer. -/
theorem sC2_dangling_symlink (env : BuildEnv) (uri : ThunarVfsURI)
    (lsb : StatBuf)
    (hl : env.lstat = some lsb)
    (hlnk : S_ISLNK lsb.st_mode = true)
    (hst : env.stat = none) :
    ∃ info, thunar_vfs_info_new_for_uri env uri = Except.ok info ∧
      info.type = THUNAR_VFS_FILE_TYPE_SYMLINK ∧
      hasFlag info THUNAR_VFS_FILE_FLAGS_SYMLINK = true ∧
      info.mode = lsb.st_mode &&& 0o7777 ∧
      info.uid = lsb.st_uid ∧ info.gid = lsb.st_gid ∧
      info.size = lsb.st_size ∧ info.atime = lsb.st_atime ∧
      info.ctime = lsb.st_ctime ∧ info.mtime = lsb.st_mtime ∧
      info.inode = lsb.st_ino ∧ info.device = lsb.st_dev := by
  have hb : thunar_vfs_info_new_for_uri env uri =
      info_mime_switch env (info_with_attributes uri lsb env.stat) := by
    unfold thunar_vfs_info_new_for_uri; rw [hl]
  have hattr : info_with_attributes uri lsb env.stat =
      { fill_from_stat lsb THUNAR_VFS_FILE_FLAGS_SYMLINK (info_base uri) with
        type := THUNAR_VFS_FILE_TYPE_SYMLINK } := by
    unfold info_with_attributes
    rw [hlnk, hst]
    simp
  refine ⟨{ fill_from_stat lsb THUNAR_VFS_FILE_FLAGS_SYMLINK (info_base uri) with
            type := THUNAR_VFS_FILE_TYPE_SYMLINK
            mime_info := "inode/symlink" },
          ?_, rfl, hasFlag_symlink_one _ rfl,
          rfl, rfl, rfl, rfl, rfl, rfl, rfl, rfl, rfl⟩
  rw [hb, hattr]
  exact info_mime_switch_symlink env _ rfl

def uriC2 : ThunarVfsURI := { path := "/tmp/badlink", display_name := "badlink" }

def statC2 : StatBuf :=
  { st_mode := 0o120777, st_uid := 1, st_gid := 2, st_size := 9
    st_atime := 4, st_ctime := 5, st_mtime := 6, st_ino := 77, st_dev := 8 }

def envC2 : BuildEnv :=
  { lstat := some statC2, stat := none, access_x_ok := false
    get_info_for_file := "text/plain"
    get_infos_for_info := fun _ => [], rc_open := none }

theorem sC2_witness :
    envC2.lstat = some statC2 ∧ S_ISLNK statC2.st_mode = true ∧
    envC2.stat = none ∧
    ∃ info, thunar_vfs_info_new_for_uri envC2 uriC2 = Except.ok info ∧
      info.type = THUNAR_VFS_FILE_TYPE_SYMLINK ∧
      hasFlag info THUNAR_VFS_FILE_FLAGS_SYMLINK = true ∧
      info.mode = statC2.st_mode &&& 0o7777 ∧
      info.uid = statC2.st_uid ∧ info.gid = statC2.st_gid ∧
      info.size = statC2.st_size ∧ info.atime = statC2.st_atime ∧
      info.ctime = statC2.st_ctime ∧ info.mtime = statC2.st_mtime ∧
      info.inode = statC2.st_ino ∧ info.device = statC2.st_dev :=
  ⟨rfl, by decide, rfl,
    sC2_dangling_symlink envC2 uriC2 statC2 rfl (by decide) rfl⟩

/-- Launcher executability characterization for descriptors whose flags
are NONE or SYMLINK. -/
theorem desktop_exec_check_spec (rc : XfceRc) (i : ThunarVfsInfo)
    (h : i.flags = 0 ∨ i.flags = 1) :
    (hasFlag (desktop_exec_check rc i) THUNAR_VFS_FILE_FLAGS_EXECUTABLE = true ↔
      ((rc.read_entry_untranslated "Type").getD "Application" = "Application"
        ∧ rc.read_entry "Exec" ≠ none)) := by
  unfold desktop_exec_check
  split
  · rename_i hc
    exact ⟨fun _ => hc, fun _ => hasFlag_exec_or i h⟩
  · rename_i hc
    rw [hasFlag_exec_low i h]
    simp only [Bool.false_eq_true, false_iff]
    exact hc

def uriC3 : ThunarVfsURI :=
  { path := "/apps/empty.desktop", display_name := "empty.desktop" }

def rcC3 : XfceRc :=
  { read_entry := fun k => if k = "Exec" then some "" else none
    read_entry_untranslated := fun _ => none
    read_bool_entry := fun _ d => d }

def statC3 : StatBuf :=
  { st_mode := 0o100000, st_uid := 0, st_gid := 0, st_size := 0
    st_atime := 0, st_ctime := 0, st_mtime := 0, st_ino := 5, st_dev := 1 }

def envC3 : BuildEnv :=
  { lstat := some statC3, stat := none, access_x_ok := false
    get_info_for_file := "application/x-desktop"
    get_infos_for_info := fun m => [m], rc_open := some rcC3 }

def infoC3 : ThunarVfsInfo :=
  { uri := uriC3, ref_count := 1, display_name := "empty.desktop"
    hints := some { icon := none, name := none }
    type := 8, mode := 0, flags := 2, uid := 0, gid := 0, size := 0
    atime := 0, ctime := 0, mtime := 0, inode := 5, device := 1
    mime_info := "application/x-desktop" }

/-- C3 counterexample: a launcher file whose Exec entry is present but
empty (and whose Type entry is absent) gets the executable flag from the
builder, although no non-empty Exec value exists — the code tests
presence of the Exec entry, not non-emptiness. -/
theorem sC3_counterexample :
    thunar_vfs_info_new_for_uri envC3 uriC3 = Except.ok infoC3 ∧
    hasFlag infoC3 THUNAR_VFS_FILE_FLAGS_EXECUTABLE = true ∧
    ¬ (∃ v, rcC3.read_entry "Exec" = some v ∧ v ≠ "") := by
  refine ⟨rfl, rfl, ?_⟩
  rintro ⟨v, hv, hne⟩
  have h2 : rcC3.read_entry "Exec" = some "" := rfl
  rw [h2] at hv
  injection hv with h3
  exact hne h3.symm

/-- C3 (amended): for a regular file whose content type resolves to the
launcher type and whose launcher file is readable, the builder sets the
executable flag exactly when the Type entry is absent or equals
"Application" and an Exec entry is present (its value may be empty) —
independently of the permission bits and of the access check — provided
the launcher type itself is not classified under the directly executable
types. -/
theorem sC3_desktop_executable_amended (env : BuildEnv) (uri : ThunarVfsURI)
    (info : ThunarVfsInfo) (rc : XfceRc)
    (hok : thunar_vfs_info_new_for_uri env uri = Except.ok info)
    (hreg : info.type = THUNAR_VFS_FILE_TYPE_REGULAR)
    (hmime : env.get_info_for_file = "application/x-desktop")
    (hrc : env.rc_open = some rc)
    (hanc : ∀ n ∈ env.get_infos_for_info "application/x-desktop",
      directly_executable n = false) :
    (hasFlag info THUNAR_VFS_FILE_FLAGS_EXECUTABLE = true ↔
      ((rc.read_entry_untranslated "Type").getD "Application" = "Application"
        ∧ rc.read_entry "Exec" ≠ none)) := by
  obtain ⟨lsb, hl, ht, heq⟩ := build_regular_decomposition env uri info hok hreg
  have hm2 : ({ info_with_attributes uri lsb env.stat with
      mime_info := env.get_info_for_file } : ThunarVfsInfo).mime_info =
      "application/x-desktop" := hmime
  have hskip : exec_flag_check env
      { info_with_attributes uri lsb env.stat with
        mime_info := env.get_info_for_file } =
      { info_with_attributes uri lsb env.stat with
        mime_info := env.get_info_for_file } := by
    unfold exec_flag_check
    split
    · split
      · rename_i hany
        exfalso
        rw [List.any_eq_true] at hany
        obtain ⟨n, hn, hdn⟩ := hany
        rw [hm2] at hn
        rw [hanc n hn] at hdn
        cases hdn
      · rfl
    · rfl
  have hinfo : info = desktop_exec_check rc (desktop_hints_set rc
      { info_with_attributes uri lsb env.stat with
        mime_info := env.get_info_for_file }) := by
    rw [heq, hskip]
    unfold desktop_hints_check
    rw [if_pos hm2, hrc]
  have hfl2 : (desktop_hints_set rc
      { info_with_attributes uri lsb env.stat with
        mime_info := env.get_info_for_file }).flags = 0 ∨
      (desktop_hints_set rc
        { info_with_attributes uri lsb env.stat with
          mime_info := env.get_info_for_file }).flags = 1 :=
    info_with_attributes_flags uri lsb env.stat
  rw [hinfo]
  exact desktop_exec_check_spec rc _ hfl2

theorem sC3_witness :
    (∀ n ∈ envC3.get_infos_for_info "application/x-desktop",
      directly_executable n = false) ∧
    (hasFlag infoC3 THUNAR_VFS_FILE_FLAGS_EXECUTABLE = true ↔
      ((rcC3.read_entry_untranslated "Type").getD "Application" = "Application"
        ∧ rcC3.read_entry "Exec" ≠ none)) :=
  ⟨by decide,
   sC3_desktop_executable_amended envC3 uriC3 infoC3 rcC3 rfl rfl rfl rfl
     (by decide)⟩

def uriC4 : ThunarVfsURI :=
  { path := "/apps/app.desktop", display_name := "app.desktop" }

def rcC4 : XfceRc :=
  { read_entry := fun k => if k = "Name" then some "Old" else none
    read_entry_untranslated := fun _ => none
    read_bool_entry := fun _ d => d }

def statC4 : StatBuf :=
  { st_mode := 0o100644, st_uid := 10, st_gid := 10, st_size := 200
    st_atime := 1, st_ctime := 2, st_mtime := 3, st_ino := 42, st_dev := 7 }

def envC4 : BuildEnv :=
  { lstat := some statC4, stat := none, access_x_ok := false
    get_info_for_file := "application/x-desktop"
    get_infos_for_info := fun m => [m], rc_open := some rcC4 }

def infoC4 : ThunarVfsInfo :=
  { uri := uriC4, ref_count := 1, display_name := "app.desktop"
    hints := some { icon := none, name := some "Old" }
    type := 8, mode := 0o644, flags := 0, uid := 10, gid := 10, size := 200
    atime := 1, ctime := 2, mtime := 3, inode := 42, device := 7
    mime_info := "application/x-desktop" }

def renvC4 : RenameEnv :=
  { language_names := []
    key_file_load := some { has_desktop_entry_group := true
                            entries := [("Name", "Old")] }
    key_file_to_data_ok := true, set_contents_ok := true
    filename_from_utf8 := fun s => some s
    file_test_exists := fun _ => false, rename_ok := true
    path_get_dirname := fun _ => "/apps"
    build_filename := fun d n => d ++ "/" ++ n
    get_info_for_file := fun _ _ => "text/plain" }

/-- C4 counterexample: two live descriptors of the same launcher file
(one built, one obtained from it by a successful launcher rename, which
only rewrites the on-disk Name entry and the name hint) satisfy
`matches` although their hints differ — `matches` does not compare the
hints (nor the display name). -/
theorem sC4_counterexample :
    thunar_vfs_info_new_for_uri envC4 uriC4 = Except.ok infoC4 ∧
    (thunar_vfs_info_rename renvC4 infoC4 "New").err = none ∧
    thunar_vfs_info_matches infoC4
      (thunar_vfs_info_rename renvC4 infoC4 "New").info = true ∧
    infoC4.hints ≠ (thunar_vfs_info_rename renvC4 infoC4 "New").info.hints :=
  ⟨rfl, rfl, by decide, by decide⟩

/-- C4 (amended): for live descriptors, `matches` returns true exactly
when the thirteen compared attributes agree — file type, mode, flags,
uid, gid, size, atime, mtime, ctime, inode, device, the content type by
identity, and the location by the location abstraction's equality;
display_name and hints are not part of the comparison. -/
theorem sC4_matches_amended (a b : ThunarVfsInfo)
    (ha : 0 < a.ref_count) (hb : 0 < b.ref_count) :
    (thunar_vfs_info_matches a b = true ↔
      (a.type = b.type ∧ a.mode = b.mode ∧ a.flags = b.flags ∧
       a.uid = b.uid ∧ a.gid = b.gid ∧ a.size = b.size ∧
       a.atime = b.atime ∧ a.mtime = b.mtime ∧ a.ctime = b.ctime ∧
       a.inode = b.inode ∧ a.device = b.device ∧
       a.mime_info = b.mime_info ∧
       thunar_vfs_uri_equal a.uri b.uri = true)) := by
  rw [matches_true_iff]
  have h1 : a.ref_count ≠ 0 := by omega
  have h2 : b.ref_count ≠ 0 := by omega
  simp [h1, h2, thunar_vfs_uri_equal]

theorem sC4_witness :
    0 < infoC1.ref_count ∧
    (thunar_vfs_info_matches infoC1 infoC1 = true ↔
      (infoC1.type = infoC1.type ∧ infoC1.mode = infoC1.mode ∧
       infoC1.flags = infoC1.flags ∧ infoC1.uid = infoC1.uid ∧
       infoC1.gid = infoC1.gid ∧ infoC1.size = infoC1.size ∧
       infoC1.atime = infoC1.atime ∧ infoC1.mtime = infoC1.mtime ∧
       infoC1.ctime = infoC1.ctime ∧ infoC1.inode = infoC1.inode ∧
       infoC1.device = infoC1.device ∧ infoC1.mime_info = infoC1.mime_info ∧
       thunar_vfs_uri_equal infoC1.uri infoC1.uri = true)) :=
  ⟨by decide, sC4_matches_amended infoC1 infoC1 (by decide) (by decide)⟩

/-- C5: `matches` is reflexive on live descriptors, symmetric, and
returns false whenever any single one of the compared attributes (type,
mode, flags, uid, gid, size, atime, mtime, ctime, inode, device,
content type identity, location equality) differs between the two
descriptors. -/
theorem sC5_matches_properties :
    (∀ a : ThunarVfsInfo, 0 < a.ref_count →
      thunar_vfs_info_matches a a = true)
    ∧ (∀ a b : ThunarVfsInfo,
        thunar_vfs_info_matches a b = thunar_vfs_info_matches b a)
    ∧ (∀ a b : ThunarVfsInfo, a.type ≠ b.type →
        thunar_vfs_info_matches a b = false)
    ∧ (∀ a b : ThunarVfsInfo, a.mode ≠ b.mode →
        thunar_vfs_info_matches a b = false)
    ∧ (∀ a b : ThunarVfsInfo, a.flags ≠ b.flags →
        thunar_vfs_info_matches a b = false)
    ∧ (∀ a b : ThunarVfsInfo, a.uid ≠ b.uid →
        thunar_vfs_info_matches a b = false)
    ∧ (∀ a b : ThunarVfsInfo, a.gid ≠ b.gid →
        thunar_vfs_info_matches a b = false)
    ∧ (∀ a b : ThunarVfsInfo, a.size ≠ b.size →
        thunar_vfs_info_matches a b = false)
    ∧ (∀ a b : ThunarVfsInfo, a.atime ≠ b.atime →
        thunar_vfs_info_matches a b = false)
    ∧ (∀ a b : ThunarVfsInfo, a.mtime ≠ b.mtime →
        thunar_vfs_info_matches a b = false)
    ∧ (∀ a b : ThunarVfsInfo, a.ctime ≠ b.ctime →
        thunar_vfs_info_matches a b = false)
    ∧ (∀ a b : ThunarVfsInfo, a.inode ≠ b.inode →
        thunar_vfs_info_matches a b = false)
    ∧ (∀ a b : ThunarVfsInfo, a.device ≠ b.device →
        thunar_vfs_info_matches a b = false)
    ∧ (∀ a b : ThunarVfsInfo, a.mime_info ≠ b.mime_info →
        thunar_vfs_info_matches a b = false)
    ∧ (∀ a b : ThunarVfsInfo, thunar_vfs_uri_equal a.uri b.uri = false →
        thunar_vfs_info_matches a b = false) := by
  have hBool : ∀ x y : Bool, (x = true ↔ y = true) → x = y := by
    intro x y h; cases x <;> cases y <;> simp_all
  have hFalse : ∀ (a b : ThunarVfsInfo),
      ¬ (a.ref_count ≠ 0 ∧ b.ref_count ≠ 0 ∧ a.type = b.type ∧
        a.mode = b.mode ∧ a.flags = b.flags ∧ a.uid = b.uid ∧
        a.gid = b.gid ∧ a.size = b.size ∧ a.atime = b.atime ∧
        a.mtime = b.mtime ∧ a.ctime = b.ctime ∧ a.inode = b.inode ∧
        a.device = b.device ∧ a.mime_info = b.mime_info ∧
        a.uri.path = b.uri.path) →
      thunar_vfs_info_matches a b = false := by
    intro a b hnot
    cases hm : thunar_vfs_info_matches a b with
    | false => rfl
    | true => exact absurd ((matches_true_iff a b).mp hm) hnot
  refine ⟨?_, ?_, ?_, ?_, ?_, ?_, ?_, ?_, ?_, ?_, ?_, ?_, ?_, ?_, ?_⟩
  · intro a ha
    exact (matches_true_iff a a).mpr
      ⟨by omega, by omega, rfl, rfl, rfl, rfl, rfl, rfl, rfl, rfl, rfl,
       rfl, rfl, rfl, rfl⟩
  · intro a b
    apply hBool
    rw [matches_true_iff, matches_true_iff]
    constructor <;>
      (rintro ⟨h1, h2, h3, h4, h5, h6, h7, h8, h9, h10, h11, h12, h13, h14, h15⟩
       exact ⟨h2, h1, h3.symm, h4.symm, h5.symm, h6.symm, h7.symm, h8.symm,
         h9.symm, h10.symm, h11.symm, h12.symm, h13.symm, h14.symm, h15.symm⟩)
  · intro a b hne
    exact hFalse a b (fun hc => hne hc.2.2.1)
  · intro a b hne
    exact hFalse a b (fun hc => hne hc.2.2.2.1)
  · intro a b hne
    exact hFalse a b (fun hc => hne hc.2.2.2.2.1)
  · intro a b hne
    exact hFalse a b (fun hc => hne hc.2.2.2.2.2.1)
  · intro a b hne
    exact hFalse a b (fun hc => hne hc.2.2.2.2.2.2.1)
  · intro a b hne
    exact hFalse a b (fun hc => hne hc.2.2.2.2.2.2.2.1)
  · intro a b hne
    exact hFalse a b (fun hc => hne hc.2.2.2.2.2.2.2.2.1)
  · intro a b hne
    exact hFalse a b (fun hc => hne hc.2.2.2.2.2.2.2.2.2.1)
  · intro a b hne
    exact hFalse a b (fun hc => hne hc.2.2.2.2.2.2.2.2.2.2.1)
  · intro a b hne
    exact hFalse a b (fun hc => hne hc.2.2.2.2.2.2.2.2.2.2.2.1)
  · intro a b hne
    exact hFalse a b (fun hc => hne hc.2.2.2.2.2.2.2.2.2.2.2.2.1)
  · intro a b hne
    exact hFalse a b (fun hc => hne hc.2.2.2.2.2.2.2.2.2.2.2.2.2.1)
  · intro a b hne
    refine hFalse a b (fun hc => ?_)
    have hp : a.uri.path = b.uri.path := hc.2.2.2.2.2.2.2.2.2.2.2.2.2.2
    have ht : thunar_vfs_uri_equal a.uri b.uri = true := by
      unfold thunar_vfs_uri_equal
      simp [hp]
    cases ht.symm.trans hne

def infoC5b : ThunarVfsInfo := { infoC1 with type := 4 }

theorem sC5_witness :
    0 < infoC1.ref_count ∧
    thunar_vfs_info_matches infoC1 infoC1 = true ∧
    infoC1.type ≠ infoC5b.type ∧
    thunar_vfs_info_matches infoC1 infoC5b = false :=
  ⟨by decide, sC5_matches_properties.1 infoC1 (by decide), by decide,
   sC5_matches_properties.2.2.1 infoC1 infoC5b (by decide)⟩

/-- C6: renaming a non-launcher descriptor to a valid name whose sibling
destination path already exists fails with the already-exists error,
issues no filesystem syscall (in particular no rename), and leaves the
descriptor unchanged. -/
theorem sC6_rename_destination_exists (env : RenameEnv)
    (info : ThunarVfsInfo) (name dst_name : String)
    (hmime : info.mime_info ≠ "application/x-desktop")
    (hname1 : name ≠ "")
    (hname2 : name.data.contains '/' = false)
    (henc : env.filename_from_utf8 name = some dst_name)
    (hex : env.file_test_exists
      (env.build_filename
        (env.path_get_dirname (thunar_vfs_uri_get_path info.uri)) dst_name)
      = true) :
    (thunar_vfs_info_rename env info name).err = some VfsError.exist ∧
    (thunar_vfs_info_rename env info name).info = info ∧
    (thunar_vfs_info_rename env info name).actions = [] := by
  have hval : ¬ (name = "" ∨ name.data.contains '/' = true) := by
    rw [hname2]; simp [hname1]
  have hr : thunar_vfs_info_rename env info name =
      rename_regular env info name := by
    unfold thunar_vfs_info_rename
    rw [if_neg hval, if_neg hmime]
  have hr2 : rename_regular env info name =
      rename_regular_at env info name
        (env.build_filename
          (env.path_get_dirname (thunar_vfs_uri_get_path info.uri))
          dst_name) := by
    unfold rename_regular
    rw [henc]
  rw [hr, hr2]
  unfold rename_regular_at
  rw [if_pos hex]
  exact ⟨rfl, rfl, rfl⟩

def renvC6 : RenameEnv :=
  { language_names := [], key_file_load := none
    key_file_to_data_ok := true, set_contents_ok := true
    filename_from_utf8 := fun s => some s
    file_test_exists := fun _ => true, rename_ok := true
    path_get_dirname := fun _ => "/d"
    build_filename := fun d n => d ++ "/" ++ n
    get_info_for_file := fun _ _ => "text/plain" }

theorem sC6_witness :
    (thunar_vfs_info_rename renvC6 infoC1 "renamed").err =
      some VfsError.exist ∧
    (thunar_vfs_info_rename renvC6 infoC1 "renamed").info = infoC1 ∧
    (thunar_vfs_info_rename renvC6 infoC1 "renamed").actions = [] :=
  sC6_rename_destination_exists renvC6 infoC1 "renamed" "renamed"
    (by decide) (by decide) (by decide) rfl rfl

theorem rename_desktop_with_err_info (env : RenameEnv)
    (info : ThunarVfsInfo) (name : String) (kf : GKeyFile) (e : VfsError)
    (h : (rename_desktop_with env info name kf).err = some e) :
    (rename_desktop_with env info name kf).info = info := by
  unfold rename_desktop_with at h ⊢
  split_ifs at h ⊢ <;> rfl

theorem rename_regular_at_err_info (env : RenameEnv)
    (info : ThunarVfsInfo) (name dst_path : String) (e : VfsError)
    (h : (rename_regular_at env info name dst_path).err = some e) :
    (rename_regular_at env info name dst_path).info = info := by
  unfold rename_regular_at at h ⊢
  split_ifs at h ⊢ <;> rfl

/-- C7: whenever a rename call reports an error, the in-memory
descriptor it was given is returned entirely unchanged. -/
theorem sC7_rename_error_no_mutation (env : RenameEnv)
    (info : ThunarVfsInfo) (name : String) (e : VfsError)
    (herr : (thunar_vfs_info_rename env info name).err = some e) :
    (thunar_vfs_info_rename env info name).info = info := by
  unfold thunar_vfs_info_rename at herr ⊢
  split_ifs at herr ⊢
  · rfl
  · unfold rename_desktop at herr ⊢
    cases hkf : env.key_file_load with
    | none => rfl
    | some kf =>
      rw [hkf] at herr
      exact rename_desktop_with_err_info env info name kf e herr
  · unfold rename_regular at herr ⊢
    cases hdn : env.filename_from_utf8 name with
    | none => rfl
    | some dn =>
      rw [hdn] at herr
      exact rename_regular_at_err_info env info name _ e herr

theorem sC7_witness :
    (thunar_vfs_info_rename renvC6 infoC1 "").err = some VfsError.inval ∧
    (thunar_vfs_info_rename renvC6 infoC1 "").info = infoC1 :=
  ⟨rfl, sC7_rename_error_no_mutation renvC6 infoC1 "" VfsError.inval rfl⟩

/-- C8: a successful launcher rename writes back the loaded key file
with the new name stored under the first locale-specific Name key (for
the first preferred locale, in preference order, whose localized key
already exists), falling back to the unlocalized Name key when no
localized key exists; and it updates the in-memory name hint only when
the hint table was already allocated. -/
theorem sC8_rename_desktop_name_key (env : RenameEnv)
    (info : ThunarVfsInfo) (name : String) (kf : GKeyFile)
    (hname1 : name ≠ "") (hname2 : name.data.contains '/' = false)
    (hmime : info.mime_info = "application/x-desktop")
    (hload : env.key_file_load = some kf)
    (hgroup : kf.has_desktop_entry_group = true)
    (hser : env.key_file_to_data_ok = true)
    (hwrite : env.set_contents_ok = true) :
    (thunar_vfs_info_rename env info name).err = none ∧
    (thunar_vfs_info_rename env info name).actions =
      [FsAction.set_contents (thunar_vfs_uri_get_path info.uri)
        (g_key_file_set_string kf
          (((env.language_names.find?
              (fun l => g_key_file_has_key kf (name_key_for_locale l))).map
            name_key_for_locale).getD "Name")
          name)] ∧
    (thunar_vfs_info_rename env info name).info.hints =
      (match info.hints with
       | none => none
       | some h => some { h with name := some name }) := by
  have hval : ¬ (name = "" ∨ name.data.contains '/' = true) := by
    rw [hname2]; simp [hname1]
  have hr : thunar_vfs_info_rename env info name =
      rename_desktop_with env info name kf := by
    unfold thunar_vfs_info_rename rename_desktop
    rw [if_neg hval, if_pos hmime, hload]
  rw [hr]
  unfold rename_desktop_with
  rw [if_neg (by simp [hgroup]), if_neg (by simp [hser]),
    if_neg (by simp [hwrite])]
  refine ⟨rfl, ?_, ?_⟩
  · rw [localized_name_key_eq_find]
  · unfold rename_update_name_hint
    cases hh : info.hints <;> simp [hh]

def kfC8 : GKeyFile :=
  { has_desktop_entry_group := true
    entries := [("Name", "Old"), ("Name[en]", "OldEn"), ("Exec", "run")] }

def renvC8 : RenameEnv :=
  { language_names := ["de", "en"], key_file_load := some kfC8
    key_file_to_data_ok := true, set_contents_ok := true
    filename_from_utf8 := fun s => some s
    file_test_exists := fun _ => false, rename_ok := true
    path_get_dirname := fun _ => "/apps"
    build_filename := fun d n => d ++ "/" ++ n
    get_info_for_file := fun _ _ => "text/plain" }

theorem sC8_witness :
    (thunar_vfs_info_rename renvC8 infoC4 "Neu").err = none ∧
    (thunar_vfs_info_rename renvC8 infoC4 "Neu").actions =
      [FsAction.set_contents (thunar_vfs_uri_get_path infoC4.uri)
        (g_key_file_set_string kfC8
          (((renvC8.language_names.find?
              (fun l => g_key_file_has_key kfC8 (name_key_for_locale l))).map
            name_key_for_locale).getD "Name")
          "Neu")] ∧
    (thunar_vfs_info_rename renvC8 infoC4 "Neu").info.hints =
      (match infoC4.hints with
       | none => none
       | some h => some { h with name := some "Neu" }) :=
  sC8_rename_desktop_name_key renvC8 infoC4 "Neu" kfC8 (by decide)
    (by decide) rfl rfl rfl rfl rfl

/-- C9: whenever execute reaches the spawn step, the working directory
passed to the process launcher is the parent directory of the first
target location if any targets were given, else the parent directory of
the descriptor's own path. -/
theorem sC9_execute_working_directory (env : ExecuteEnv)
    (info : ThunarVfsInfo) (uris : List ThunarVfsURI)
    (s : String × List String)
    (h : (thunar_vfs_info_execute env info uris).spawn = some s) :
    s.1 = env.path_get_dirname
      (((uris.head?).map thunar_vfs_uri_get_path).getD
        (thunar_vfs_uri_get_path info.uri)) := by
  unfold thunar_vfs_info_execute at h
  cases hp : execute_parse env info uris with
  | none => rw [hp] at h; simp at h
  | some argv =>
    rw [hp] at h
    cases uris with
    | nil =>
      have h2 : some (env.path_get_dirname
          (thunar_vfs_uri_get_path info.uri), argv) = some s := h
      injection h2 with h3
      rw [← h3]
      rfl
    | cons u us =>
      have h2 : some (env.path_get_dirname
          (thunar_vfs_uri_get_path u), argv) = some s := h
      injection h2 with h3
      rw [← h3]
      rfl

def envC9 : ExecuteEnv :=
  { rc_open := none
    parse_exec := fun _ _ _ _ _ _ => some ["run"]
    shell_quote := fun s => s
    path_get_dirname := fun _ => "/w"
    spawn_ok := true }

theorem sC9_witness :
    (thunar_vfs_info_execute envC9 infoC1 [uriC2]).spawn =
      some ("/w", ["run"]) ∧
    ("/w", ["run"]).1 = envC9.path_get_dirname
      ((([uriC2].head?).map thunar_vfs_uri_get_path).getD
        (thunar_vfs_uri_get_path infoC1.uri)) :=
  ⟨rfl,
   sC9_execute_working_directory envC9 infoC1 [uriC2] ("/w", ["run"]) rfl⟩

theorem info_mime_switch_regular (env : BuildEnv) (i : ThunarVfsInfo)
    (h : i.type = THUNAR_VFS_FILE_TYPE_REGULAR) :
    info_mime_switch env i = Except.ok (desktop_hints_check env
      (exec_flag_check env { i with mime_info := env.get_info_for_file })) := by
  unfold info_mime_switch
  rw [if_neg (by rw [h]; decide), if_neg (by rw [h]; decide),
    if_neg (by rw [h]; decide), if_neg (by rw [h]; decide),
    if_neg (by rw [h]; decide), if_neg (by rw [h]; decide), if_pos h]

/-- C10: the hint table is non-absent only for descriptors whose content
type was the launcher type when the hints were loaded: the builder
leaves hints absent for non-regular files, for regular files of
non-launcher content type, and (without reporting an error) for a
launcher file that is unreadable; and rename never allocates nor frees
the hint table, so the invariant survives every sequence of renames. -/
theorem sC10_hints_invariant :
    (∀ (env : BuildEnv) (uri : ThunarVfsURI) (info : ThunarVfsInfo),
      thunar_vfs_info_new_for_uri env uri = Except.ok info →
      info.hints ≠ none → info.mime_info = "application/x-desktop")
    ∧ (∀ (env : BuildEnv) (uri : ThunarVfsURI) (info : ThunarVfsInfo),
        thunar_vfs_info_new_for_uri env uri = Except.ok info →
        info.type ≠ THUNAR_VFS_FILE_TYPE_REGULAR → info.hints = none)
    ∧ (∀ (env : BuildEnv) (uri : ThunarVfsURI) (info : ThunarVfsInfo),
        thunar_vfs_info_new_for_uri env uri = Except.ok info →
        info.mime_info ≠ "application/x-desktop" → info.hints = none)
    ∧ (∀ (env : BuildEnv) (uri : ThunarVfsURI) (lsb : StatBuf),
        env.lstat = some lsb →
        S_ISLNK lsb.st_mode = false →
        (lsb.st_mode &&& S_IFMT) >>> 12 = THUNAR_VFS_FILE_TYPE_REGULAR →
        env.get_info_for_file = "application/x-desktop" →
        env.rc_open = none →
        ∃ info, thunar_vfs_info_new_for_uri env uri = Except.ok info ∧
          info.hints = none)
    ∧ (∀ (env : RenameEnv) (info : ThunarVfsInfo) (name : String),
        ((thunar_vfs_info_rename env info name).info.hints).isSome =
          info.hints.isSome) := by
  refine ⟨?_, ?_, ?_, ?_, ?_⟩
  · intro env uri info hok hne
    rcases build_hints_cases env uri info hok with h | h
    · exact absurd h hne
    · exact h.1
  · intro env uri info hok hnr
    rcases build_hints_cases env uri info hok with h | h
    · exact h
    · exact absurd h.2.1 hnr
  · intro env uri info hok hnd
    rcases build_hints_cases env uri info hok with h | h
    · exact h
    · exact absurd h.1 hnd
  · intro env uri lsb hl hlnk htype hmime hrc
    have hb : thunar_vfs_info_new_for_uri env uri =
        info_mime_switch env (info_with_attributes uri lsb env.stat) := by
      unfold thunar_vfs_info_new_for_uri; rw [hl]
    have hattr : info_with_attributes uri lsb env.stat =
        fill_from_stat lsb THUNAR_VFS_FILE_FLAGS_NONE (info_base uri) := by
      unfold info_with_attributes
      rw [hlnk]
      simp
    have htype2 : (info_with_attributes uri lsb env.stat).type =
        THUNAR_VFS_FILE_TYPE_REGULAR := by
      rw [hattr]; exact htype
    refine ⟨desktop_hints_check env (exec_flag_check env
      { info_with_attributes uri lsb env.stat with
        mime_info := env.get_info_for_file }), ?_, ?_⟩
    · rw [hb]
      exact info_mime_switch_regular env _ htype2
    · unfold desktop_hints_check
      rw [if_pos (by rw [exec_flag_check_mime]; exact hmime), hrc]
      rw [exec_flag_check_hints]
      exact info_with_attributes_hints uri lsb env.stat
  · exact rename_hints_isSome

def uriC10 : ThunarVfsURI :=
  { path := "/apps/locked.desktop", display_name := "locked.desktop" }

def envC10 : BuildEnv :=
  { lstat := some statC3, stat := none, access_x_ok := false
    get_info_for_file := "application/x-desktop"
    get_infos_for_info := fun m => [m], rc_open := none }

def infoC2 : ThunarVfsInfo :=
  { uri := uriC2, ref_count := 1, display_name := "badlink", hints := none
    type := 10, mode := 0o777, flags := 1, uid := 1, gid := 2, size := 9
    atime := 4, ctime := 5, mtime := 6, inode := 77, device := 8
    mime_info := "inode/symlink" }

theorem sC10_witness :
    infoC4.mime_info = "application/x-desktop" ∧
    infoC2.hints = none ∧
    infoC1.hints = none ∧
    (∃ info, thunar_vfs_info_new_for_uri envC10 uriC10 = Except.ok info ∧
      info.hints = none) ∧
    ((thunar_vfs_info_rename renvC4 infoC4 "New").info.hints).isSome =
      infoC4.hints.isSome :=
  ⟨sC10_hints_invariant.1 envC4 uriC4 infoC4 rfl (by decide),
   sC10_hints_invariant.2.1 envC2 uriC2 infoC2 rfl (by decide),
   sC10_hints_invariant.2.2.1 envC1 uriC1 infoC1 rfl (by decide),
   sC10_hints_invariant.2.2.2.1 envC10 uriC10 statC3 rfl (by decide)
     (by decide) rfl rfl,
   sC10_hints_invariant.2.2.2.2 renvC4 infoC4 "New"⟩

end ThunarVfs
